import Mathlib

/-!
Verification of the credential-lifecycle core of the Highwind SDK client
(src/highwind/client.py), shallowly embedded in Lean.

Modelling conventions:
* Instants are UTC epoch seconds (Int); datetime.now(tz=utc) becomes an
  explicit `now : Int` parameter, at second granularity (strftime with the
  TIME_FORMAT of the client truncates to whole seconds anyway).
* Stored expiry timestamps are the strings the client actually stores;
  strftime/strptime with TIME_FORMAT ("%Y-%m-%dT%H:%M:%S") are modelled by
  strftimeTF/strptimeTF over the proleptic Gregorian calendar, on the
  fixed-width 19-character shape that strftime emits.
* Python float expires_in values are modelled at second granularity as Int.
* Network traffic is modelled by oracles for the two token-endpoint
  responses plus an explicit trace of network calls made.
* Exceptions are modelled with an explicit error type.
-/

/-- Python truthiness of an Optional str: None and the empty string are falsy. -/
def pyTruthyStr : Option String → Bool
  | none => false
  | some s => s ≠ ""

/-- Decimal digit character, for rendering strftime fields. -/
def digitChar (n : Nat) : Char :=
  match n with
  | 0 => '0' | 1 => '1' | 2 => '2' | 3 => '3' | 4 => '4'
  | 5 => '5' | 6 => '6' | 7 => '7' | 8 => '8' | 9 => '9'
  | _ => '0'

/-- Parse one decimal digit character. -/
def parseDigit (c : Char) : Option Nat :=
  if c = '0' then some 0 else if c = '1' then some 1
  else if c = '2' then some 2 else if c = '3' then some 3
  else if c = '4' then some 4 else if c = '5' then some 5
  else if c = '6' then some 6 else if c = '7' then some 7
  else if c = '8' then some 8 else if c = '9' then some 9 else none

/-- Zero-padded 2-digit rendering (strftime %m, %d, %H, %M, %S). -/
def pad2 (n : Nat) : List Char := [digitChar (n / 10 % 10), digitChar (n % 10)]

/-- Zero-padded 4-digit rendering (strftime %Y in the supported year range). -/
def pad4 (n : Nat) : List Char :=
  [digitChar (n / 1000 % 10), digitChar (n / 100 % 10),
   digitChar (n / 10 % 10), digitChar (n % 10)]

/-- Parse a 2-digit decimal field. -/
def parse2 (a b : Char) : Option Nat :=
  match parseDigit a, parseDigit b with
  | some x, some y => some (x * 10 + y)
  | _, _ => none

/-- Parse a 4-digit decimal field. -/
def parse4 (a b c d : Char) : Option Nat :=
  match parseDigit a, parseDigit b, parseDigit c, parseDigit d with
  | some x, some y, some z, some w => some (x * 1000 + y * 100 + z * 10 + w)
  | _, _, _, _ => none

/-- Day-of-era within the 400-year Gregorian cycle containing epoch day z
(days counted from 1970-01-01; 719468 days from 0000-03-01 to 1970-01-01). -/
def doeH (z : Int) : Int := (z + 719468) % 146097

/-- Era (400-year Gregorian cycle index) of epoch day z. -/
def eraH (z : Int) : Int := (z + 719468) / 146097

/-- Century-of-era (0-3) of epoch day z, in the March-based calendar. -/
def centH (z : Int) : Int := (4 * doeH z + 3) / 146097

/-- Day within the century of epoch day z (0-36524). -/
def rcH (z : Int) : Int := (4 * doeH z + 3) % 146097 / 4

/-- Year within the century (0-99) of epoch day z, March-based. -/
def zcH (z : Int) : Int := (4 * rcH z + 3) / 1461

/-- Year-of-era (0-399) of epoch day z, in the March-based calendar. -/
def yoeH (z : Int) : Int := 100 * centH z + zcH z

/-- Day-of-year of epoch day z, in the March-based calendar (0 = March 1). -/
def doyH (z : Int) : Int := (4 * rcH z + 3) % 1461 / 4

/-- March-based month index of epoch day z (0 = March ... 11 = February). -/
def mpH (z : Int) : Int := (5 * doyH z + 2) / 153

/-- Day of month of epoch day z. -/
def dayH (z : Int) : Int := doyH z - (153 * mpH z + 2) / 5 + 1

/-- Civil month (1-12) of epoch day z. -/
def monthH (z : Int) : Int := if mpH z < 10 then mpH z + 3 else mpH z - 9

/-- Civil year of epoch day z. -/
def yearH (z : Int) : Int :=
  yoeH z + eraH z * 400 + (if monthH z ≤ 2 then 1 else 0)

/-- Civil (year, month, day) of an epoch day number, proleptic Gregorian. -/
def civilFromDays (z : Int) : Int × Int × Int := (yearH z, monthH z, dayH z)

/-- Epoch day number of a civil (year, month, day), proleptic Gregorian. -/
def daysFromCivil (y m d : Int) : Int :=
  ((if m ≤ 2 then y - 1 else y) / 400) * 146097
    + ((if m ≤ 2 then y - 1 else y) % 400) * 365
    + ((if m ≤ 2 then y - 1 else y) % 400) / 4
    - ((if m ≤ 2 then y - 1 else y) % 400) / 100
    + (153 * (if 2 < m then m - 3 else m + 9) + 2) / 5 + d - 1
    - 719468

/-- The fixed timestamp format constant of the client (Client.TIME_FORMAT).
Note: it has no timezone-offset directive. -/
def TIME_FORMAT : String := "%Y-%m-%dT%H:%M:%S"

/-- datetime.strftime with TIME_FORMAT, on UTC epoch seconds. -/
def strftimeTF (t : Int) : String :=
  String.mk
    (pad4 (yearH (t / 86400)).toNat
      ++ '-' :: pad2 (monthH (t / 86400)).toNat
      ++ '-' :: pad2 (dayH (t / 86400)).toNat
      ++ 'T' :: pad2 ((t % 86400).toNat / 3600)
      ++ ':' :: pad2 ((t % 86400).toNat % 3600 / 60)
      ++ ':' :: pad2 ((t % 86400).toNat % 60))

/-- datetime.strptime with TIME_FORMAT followed by replace(tzinfo=utc),
on the fixed-width 19-character shape that strftimeTF emits, returning UTC
epoch seconds. Returns none where strptime raises ValueError; a calendar
date is validated by converting it to an epoch day and back. -/
def strptimeTF (s : String) : Option Int :=
  match s.data with
  | [y1, y2, y3, y4, c1, m1, m2, c2, d1, d2, c3, h1, h2, c4, n1, n2, c5, s1, s2] =>
    if c1 = '-' ∧ c2 = '-' ∧ c3 = 'T' ∧ c4 = ':' ∧ c5 = ':' then
      match parse4 y1 y2 y3 y4, parse2 m1 m2, parse2 d1 d2,
            parse2 h1 h2, parse2 n1 n2, parse2 s1 s2 with
      | some y, some m, some d, some hh, some mm, some ss =>
        if 1 ≤ y ∧ y ≤ 9999 ∧ 1 ≤ m ∧ m ≤ 12 ∧ 1 ≤ d ∧ d ≤ 31
            ∧ hh ≤ 23 ∧ mm ≤ 59 ∧ ss ≤ 59
            ∧ civilFromDays (daysFromCivil y m d) = ((y : Int), (m : Int), (d : Int)) then
          some (daysFromCivil y m d * 86400 + ((hh : Int) * 3600 + (mm : Int) * 60 + (ss : Int)))
        else none
      | _, _, _, _, _, _ => none
    else none
  | _ => none

/-- The credential state held by a Client instance: the six fields set in
Client.__init__ / _set_variables_from_token. -/
structure Credential where
  access_token : Option String
  access_token_expires_in : Int
  access_token_expires_at : Option String
  refresh_token : Option String
  refresh_token_expires_in : Int
  refresh_token_expires_at : Option String
deriving DecidableEq, Repr

/-- An OAuth2 token-endpoint JSON response (2xx), with the four fields the
client reads; a missing field is none. -/
structure TokenDict where
  access_token : Option String
  expires_in : Option Int
  refresh_token : Option String
  refresh_expires_in : Option Int
deriving DecidableEq, Repr

/-- Network operations the client performs during authentication. -/
inductive NetCall
  /-- The localhost HTTP server awaiting the auth-code callback
  (login step). -/
  | listenCallback
  /-- POST to the token endpoint exchanging the auth code (login step). -/
  | tokenExchange
  /-- POST to the token endpoint exchanging the refresh token. -/
  | tokenRefresh
deriving DecidableEq, Repr

/-- Exceptions raised by the modelled client paths. -/
inductive AuthError
  /-- Exception raised in login() when the token response lacks a truthy
  access_token: the message is
  Token received from Keycloak did not contain access_token.
  The spec calls this InvalidTokenResponse. -/
  | invalidTokenResponse
  /-- Exception raised in _authenticate(): "Please refresh your login.".
  The spec calls this ReauthenticationRequired. -/
  | reauthenticationRequired
  /-- ValueError from datetime.strptime on a malformed stored timestamp. -/
  | valueError
deriving DecidableEq, Repr

/-- Client._is_token_expired: a missing (None or empty, i.e. falsy) timestamp
counts as expired; otherwise the timestamp is parsed with TIME_FORMAT, given
tzinfo=utc, and compared with expiry less-or-equal now. A parse failure is a
ValueError, modelled as none. -/
def is_token_expired (timestamp : Option String) (now : Int) : Option Bool :=
  match timestamp with
  | none => some true
  | some s =>
    if s = "" then some true
    else
      match strptimeTF s with
      | none => none
      | some expiry => some (decide (expiry ≤ now))

/-- Client._is_access_token_expired: an access token with
access_token_expires_in equal to 0 is non-expiring. -/
def is_access_token_expired (c : Credential) (now : Int) : Option Bool :=
  if c.access_token_expires_in = 0 then some false
  else is_token_expired c.access_token_expires_at now

/-- Client._is_refresh_token_expired: a refresh token with
refresh_token_expires_in equal to 0 is non-expiring. -/
def is_refresh_token_expired (c : Credential) (now : Int) : Option Bool :=
  if c.refresh_token_expires_in = 0 then some false
  else is_token_expired c.refresh_token_expires_at now

/-- Client._calculate_token_expiry: strftime of now plus expires_in seconds,
in TIME_FORMAT. -/
def calculate_token_expiry (now expires_in : Int) : String :=
  strftimeTF (now + expires_in)

/-- Client._set_variables_from_token: overwrites all six credential fields
from the token dictionary; missing expires_in / refresh_expires_in default
to 0, and both expiry timestamps are recomputed from now. -/
def set_variables_from_token (token : TokenDict) (now : Int) : Credential :=
  { access_token := token.access_token
    access_token_expires_in := token.expires_in.getD 0
    access_token_expires_at := some (calculate_token_expiry now (token.expires_in.getD 0))
    refresh_token := token.refresh_token
    refresh_token_expires_in := token.refresh_expires_in.getD 0
    refresh_token_expires_at :=
      some (calculate_token_expiry now (token.refresh_expires_in.getD 0)) }

/-- Client.login after the browser flow: the token-endpoint response
(loginTok) is applied via _set_variables_from_token, then login raises if
the resulting access_token is falsy. The network calls are the localhost
callback listener and the code-for-token exchange. -/
def login (loginTok : TokenDict) (now : Int) :
    Credential × List NetCall × Except AuthError Unit :=
  let c := set_variables_from_token loginTok now
  if pyTruthyStr c.access_token then
    (c, [NetCall.listenCallback, NetCall.tokenExchange], Except.ok ())
  else
    (c, [NetCall.listenCallback, NetCall.tokenExchange],
     Except.error AuthError.invalidTokenResponse)

/-- Client._refresh_access_token: POSTs the refresh grant and applies the
response via _set_variables_from_token, with no access_token check. -/
def refresh_access_token (refreshTok : TokenDict) (now : Int) :
    Credential × List NetCall × Except AuthError Unit :=
  (set_variables_from_token refreshTok now, [NetCall.tokenRefresh], Except.ok ())

/-- Client._authenticate: the four-branch decision procedure. loginTok and
refreshTok are the token-endpoint responses the network would return if the
corresponding call is made; now is the current UTC time in epoch seconds.
Returns the credential after the call, the trace of network calls made, and
the outcome (ok, or the modelled exception). -/
def authenticate (c : Credential) (loginTok refreshTok : TokenDict) (now : Int) :
    Credential × List NetCall × Except AuthError Unit :=
  if pyTruthyStr c.access_token = false then
    login loginTok now
  else
    match is_access_token_expired c now with
    | none => (c, [], Except.error AuthError.valueError)
    | some aexp =>
      if aexp = false then (c, [], Except.ok ())
      else
        match is_refresh_token_expired c now with
        | none => (c, [], Except.error AuthError.valueError)
        | some rexp =>
          if rexp = false then refresh_access_token refreshTok now
          else (c, [], Except.error AuthError.reauthenticationRequired)

/-- UTF-8 encoding of one character, as byte values. -/
def utf8EncodeChar (c : Char) : List Nat :=
  let n := c.toNat
  if n < 128 then [n]
  else if n < 2048 then [192 + n / 64, 128 + n % 64]
  else if n < 65536 then [224 + n / 4096, 128 + n / 64 % 64, 128 + n % 64]
  else [240 + n / 262144, 128 + n / 4096 % 64, 128 + n / 64 % 64, 128 + n % 64]

/-- str.encode(): UTF-8 bytes of a string. -/
def utf8Encode (s : String) : List Nat := (s.data.map utf8EncodeChar).flatten

/-- The URL-safe base64 alphabet (RFC 4648 section 5). -/
def b64urlAlphabet : List Char :=
  "ABCDEFGHIJKLMNOPQRSTUVWXYZabcdefghijklmnopqrstuvwxyz0123456789-_".data

/-- One URL-safe base64 alphabet character. -/
def b64char (n : Nat) : Char := b64urlAlphabet.getD n 'A'

/-- base64.urlsafe_b64encode: RFC 4648 URL-safe encoding with '=' padding. -/
def b64urlEncode : List Nat → List Char
  | [] => []
  | [b1] => [b64char (b1 / 4), b64char (b1 % 4 * 16), '=', '=']
  | [b1, b2] => [b64char (b1 / 4), b64char (b1 % 4 * 16 + b2 / 16),
                 b64char (b2 % 16 * 4), '=']
  | b1 :: b2 :: b3 :: rest =>
    b64char (b1 / 4) :: b64char (b1 % 4 * 16 + b2 / 16)
      :: b64char (b2 % 16 * 4 + b3 / 64) :: b64char (b3 % 64) :: b64urlEncode rest

/-- str.rstrip("="): drop trailing '=' characters. -/
def rstripEq (s : List Char) : List Char := (s.reverse.dropWhile (· = '=')).reverse

/-- URL-safe unpadded base64 of a byte list, as the client computes it:
urlsafe_b64encode followed by decode("utf-8") and rstrip("="). -/
def b64urlNoPad (bytes : List Nat) : String := String.mk (rstripEq (b64urlEncode bytes))

/-- Truncate to 32 bits. -/
def w32 (x : Nat) : Nat := x % 4294967296

/-- 32-bit right rotation. -/
def rotr (n x : Nat) : Nat := w32 ((x >>> n) ||| (x <<< (32 - n)))

/-- SHA-256 round constants. -/
def sha256K : List Nat :=
  [1116352408, 1899447441, 3049323471, 3921009573, 961987163,
   1508970993, 2453635748, 2870763221, 3624381080, 310598401,
   607225278, 1426881987, 1925078388, 2162078206, 2614888103,
   3248222580, 3835390401, 4022224774, 264347078, 604807628,
   770255983, 1249150122, 1555081692, 1996064986, 2554220882,
   2821834349, 2952996808, 3210313671, 3336571891, 3584528711,
   113926993, 338241895, 666307205, 773529912, 1294757372,
   1396182291, 1695183700, 1986661051, 2177026350, 2456956037,
   2730485921, 2820302411, 3259730800, 3345764771, 3516065817,
   3600352804, 4094571909, 275423344, 430227734, 506948616,
   659060556, 883997877, 958139571, 1322822218, 1537002063,
   1747873779, 1955562222, 2024104815, 2227730452, 2361852424,
   2428436474, 2756734187, 3204031479, 3329325298]

/-- SHA-256 initial hash state. -/
def sha256H0 : List Nat :=
  [1779033703, 3144134277, 1013904242, 2773480762,
   1359893119, 2600822924, 528734635, 1541459225]

/-- SHA-256 padding: append 0x80, zero bytes to 56 mod 64, and the original
bit length as 8 big-endian bytes. -/
def sha256pad (msg : List Nat) : List Nat :=
  let len := msg.length
  let zeros := (120 - (len + 1) % 64) % 64
  msg ++ 128 :: List.replicate zeros 0
    ++ ((List.range 8).map fun i => ((len * 8) >>> (56 - 8 * i)) % 256)

/-- Group a byte list into big-endian 32-bit words (length a multiple of 4). -/
def bytesToWords : List Nat → List Nat
  | b1 :: b2 :: b3 :: b4 :: rest =>
    (b1 * 16777216 + b2 * 65536 + b3 * 256 + b4) :: bytesToWords rest
  | _ => []

/-- Group a word list into 16-word blocks. -/
def wordsToBlocks : List Nat → List (List Nat)
  | [] => []
  | w1 :: w2 :: w3 :: w4 :: w5 :: w6 :: w7 :: w8 :: w9 :: w10 :: w11 :: w12
      :: w13 :: w14 :: w15 :: w16 :: rest =>
    [w1, w2, w3, w4, w5, w6, w7, w8, w9, w10, w11, w12, w13, w14, w15, w16]
      :: wordsToBlocks rest
  | _ => []

/-- SHA-256 message schedule: extend a 16-word block to 64 words. -/
def sha256schedule (block : List Nat) : Array Nat :=
  (List.range 48).foldl
    (fun w i =>
      let t := i + 16
      let w15 := w.getD (t - 15) 0
      let w2 := w.getD (t - 2) 0
      let s0 := rotr 7 w15 ^^^ rotr 18 w15 ^^^ (w15 >>> 3)
      let s1 := rotr 17 w2 ^^^ rotr 19 w2 ^^^ (w2 >>> 10)
      w.push (w32 (w.getD (t - 16) 0 + s0 + w.getD (t - 7) 0 + s1)))
    block.toArray

/-- One SHA-256 compression round. -/
def sha256round (st : List Nat) (k wi : Nat) : List Nat :=
  match st with
  | [a, b, c, d, e, f, g, h] =>
    let s1 := rotr 6 e ^^^ rotr 11 e ^^^ rotr 25 e
    let ch := (e &&& f) ^^^ ((4294967295 - e) &&& g)
    let t1 := w32 (h + s1 + ch + k + wi)
    let s0 := rotr 2 a ^^^ rotr 13 a ^^^ rotr 22 a
    let mj := (a &&& b) ^^^ (a &&& c) ^^^ (b &&& c)
    let t2 := w32 (s0 + mj)
    [w32 (t1 + t2), a, b, c, w32 (d + t1), e, f, g]
  | st => st

/-- SHA-256 compression of one block into the running hash state. -/
def sha256block (h : List Nat) (block : List Nat) : List Nat :=
  let w := sha256schedule block
  let st := (List.range 64).foldl
    (fun st i => sha256round st (sha256K.getD i 0) (w.getD i 0)) h
  (h.zip st).map fun p => w32 (p.1 + p.2)

/-- SHA-256 digest of a byte list, as bytes (hashlib.sha256(...).digest()). -/
def sha256 (msg : List Nat) : List Nat :=
  let blocks := wordsToBlocks (bytesToWords (sha256pad msg))
  let hFinal := blocks.foldl sha256block sha256H0
  hFinal.flatMap fun w => [w / 16777216 % 256, w / 65536 % 256, w / 256 % 256, w % 256]

/-- Client._generate_pkce, as a function of the 40 bytes drawn from
os.urandom(40): the verifier is their URL-safe unpadded base64 encoding, and
the challenge is the URL-safe unpadded base64 encoding of the SHA-256 digest
of the UTF-8 bytes of the verifier. -/
def generate_pkce (urandomBytes : List Nat) : String × String :=
  let code_verifier := b64urlNoPad urandomBytes
  let code_challenge := b64urlNoPad (sha256 (utf8Encode code_verifier))
  (code_verifier, code_challenge)

theorem centuryDecomp (doe : Int) (h0 : 0 ≤ doe) (h1 : doe ≤ 146096) :
    doe = 36524 * ((4 * doe + 3) / 146097) + (4 * doe + 3) % 146097 / 4 ∧
    0 ≤ (4 * doe + 3) / 146097 ∧ (4 * doe + 3) / 146097 ≤ 3 ∧
    0 ≤ (4 * doe + 3) % 146097 / 4 ∧ (4 * doe + 3) % 146097 / 4 ≤ 36524 := by
  omega

theorem yearDecomp (r : Int) (h0 : 0 ≤ r) (h1 : r ≤ 36524) :
    r = 365 * ((4 * r + 3) / 1461) + (4 * r + 3) / 1461 / 4 + (4 * r + 3) % 1461 / 4 ∧
    0 ≤ (4 * r + 3) / 1461 ∧ (4 * r + 3) / 1461 ≤ 99 ∧
    0 ≤ (4 * r + 3) % 1461 / 4 ∧ (4 * r + 3) % 1461 / 4 ≤ 365 := by
  omega

theorem monthDecomp (doy : Int) (h0 : 0 ≤ doy) (h1 : doy ≤ 365) :
    0 ≤ (5 * doy + 2) / 153 ∧ (5 * doy + 2) / 153 ≤ 11 ∧
    1 ≤ doy - (153 * ((5 * doy + 2) / 153) + 2) / 5 + 1 ∧
    doy - (153 * ((5 * doy + 2) / 153) + 2) / 5 + 1 ≤ 31 ∧
    (153 * ((5 * doy + 2) / 153) + 2) / 5 ≤ doy ∧
    ((5 * doy + 2) / 153 ≥ 10 → doy ≥ 306) := by
  omega

theorem civilFromDays_spec (z : Int) (h0 : 0 ≤ z) (h1 : z ≤ 2932896) :
    1 ≤ yearH z ∧ yearH z ≤ 9999 ∧
    1 ≤ monthH z ∧ monthH z ≤ 12 ∧
    1 ≤ dayH z ∧ dayH z ≤ 31 ∧
    daysFromCivil (yearH z) (monthH z) (dayH z) = z := by
  have hdoe : doeH z = (z + 719468) % 146097 := rfl
  have hera : eraH z = (z + 719468) / 146097 := rfl
  have hd0 : 0 ≤ doeH z ∧ doeH z ≤ 146096 := by rw [hdoe]; omega
  have he0 : 4 ≤ eraH z ∧ eraH z ≤ 24 ∧ z + 719468 = eraH z * 146097 + doeH z := by
    rw [hdoe, hera]; omega
  have hcent : centH z = (4 * doeH z + 3) / 146097 := rfl
  have hrc : rcH z = (4 * doeH z + 3) % 146097 / 4 := rfl
  have hc := centuryDecomp (doeH z) hd0.1 hd0.2
  rw [← hcent, ← hrc] at hc
  have hzc : zcH z = (4 * rcH z + 3) / 1461 := rfl
  have hdoy : doyH z = (4 * rcH z + 3) % 1461 / 4 := rfl
  have hy := yearDecomp (rcH z) hc.2.2.2.1 hc.2.2.2.2
  rw [← hzc, ← hdoy] at hy
  have hm := monthDecomp (doyH z) hy.2.2.2.1 hy.2.2.2.2
  have hmpH : mpH z = (5 * doyH z + 2) / 153 := rfl
  rw [← hmpH] at hm
  have hyoe : yoeH z = 100 * centH z + zcH z := rfl
  have hyoeB : 0 ≤ yoeH z ∧ yoeH z ≤ 399 := by rw [hyoe]; omega
  -- The month is in 1..12, and month at most 2 exactly when the March-based
  -- month index is at least 10.
  have hmB : 1 ≤ monthH z ∧ monthH z ≤ 12 ∧ ((monthH z ≤ 2) ↔ 10 ≤ mpH z) := by
    by_cases hmp : mpH z < 10 <;> simp only [monthH, hmp, if_true, if_false] <;> omega
  have hdayH : dayH z = doyH z - (153 * mpH z + 2) / 5 + 1 := rfl
  have hdB : 1 ≤ dayH z ∧ dayH z ≤ 31 := by rw [hdayH]; omega
  -- The shifted year fed to daysFromCivil is exactly year-of-era plus era*400.
  have hyy : (if monthH z ≤ 2 then yearH z - 1 else yearH z) = yoeH z + eraH z * 400 := by
    by_cases h2 : monthH z ≤ 2 <;> simp only [yearH, h2, if_true, if_false] <;> omega
  have hyB : 1 ≤ yearH z ∧ yearH z ≤ 9999 := by
    have hyr : yearH z = yoeH z + eraH z * 400 + (if monthH z ≤ 2 then 1 else 0) := rfl
    by_cases h2 : monthH z ≤ 2 <;> rw [hyr] <;> simp only [h2, if_true, if_false] <;> omega
  -- Month-offset inverse: reconstructing day-of-year from (month, day).
  have hinv : (153 * (if 2 < monthH z then monthH z - 3 else monthH z + 9) + 2) / 5
      + dayH z - 1 = doyH z := by
    by_cases hmp : mpH z < 10
    · have hmval : monthH z = mpH z + 3 := by simp only [monthH, hmp, if_true]
      have h2lt : 2 < monthH z := by omega
      rw [if_pos h2lt, hmval, show mpH z + 3 - 3 = mpH z by ring, hdayH]
      omega
    · have hmval : monthH z = mpH z - 9 := by simp only [monthH, hmp, if_false]
      have h2lt : ¬ 2 < monthH z := by omega
      rw [if_neg h2lt, hmval, show mpH z - 9 + 9 = mpH z by ring, hdayH]
      omega
  have e1 : daysFromCivil (yearH z) (monthH z) (dayH z)
      = ((yoeH z + eraH z * 400) / 400) * 146097
        + ((yoeH z + eraH z * 400) % 400) * 365
        + ((yoeH z + eraH z * 400) % 400) / 4
        - ((yoeH z + eraH z * 400) % 400) / 100
        + (153 * (if 2 < monthH z then monthH z - 3 else monthH z + 9) + 2) / 5
        + dayH z - 1 - 719468 := by
    simp only [daysFromCivil]
    rw [hyy]
  have e2 : (yoeH z + eraH z * 400) / 400 = eraH z := by omega
  have e3 : (yoeH z + eraH z * 400) % 400 = yoeH z := by omega
  have e4 : yoeH z / 4 = 25 * centH z + zcH z / 4 := by rw [hyoe]; omega
  have e5 : yoeH z / 100 = centH z := by rw [hyoe]; omega
  rw [e2, e3, e4, e5] at e1
  refine ⟨hyB.1, hyB.2, hmB.1, hmB.2.1, hdB.1, hdB.2, ?_⟩
  rw [e1]
  omega

theorem parseDigit_digitChar : ∀ n : Nat, n < 10 → parseDigit (digitChar n) = some n := by
  decide

theorem parse2_digits (n : Nat) (h : n < 100) :
    parse2 (digitChar (n / 10 % 10)) (digitChar (n % 10)) = some n := by
  have d1 := parseDigit_digitChar (n / 10 % 10) (by omega)
  have d2 := parseDigit_digitChar (n % 10) (by omega)
  simp only [parse2, d1, d2, Option.some.injEq]
  omega

theorem parse4_digits (n : Nat) (h : n < 10000) :
    parse4 (digitChar (n / 1000 % 10)) (digitChar (n / 100 % 10))
      (digitChar (n / 10 % 10)) (digitChar (n % 10)) = some n := by
  have d1 := parseDigit_digitChar (n / 1000 % 10) (by omega)
  have d2 := parseDigit_digitChar (n / 100 % 10) (by omega)
  have d3 := parseDigit_digitChar (n / 10 % 10) (by omega)
  have d4 := parseDigit_digitChar (n % 10) (by omega)
  simp only [parse4, d1, d2, d3, d4, Option.some.injEq]
  omega

theorem strptimeTF_explicit (y1 y2 y3 y4 m1 m2 d1 d2 h1 h2 n1 n2 s1 s2 : Char) :
    strptimeTF (String.mk
      [y1, y2, y3, y4, '-', m1, m2, '-', d1, d2, 'T', h1, h2, ':', n1, n2, ':', s1, s2])
    = (match parse4 y1 y2 y3 y4, parse2 m1 m2, parse2 d1 d2,
             parse2 h1 h2, parse2 n1 n2, parse2 s1 s2 with
      | some y, some m, some d, some hh, some mm, some ss =>
        if 1 ≤ y ∧ y ≤ 9999 ∧ 1 ≤ m ∧ m ≤ 12 ∧ 1 ≤ d ∧ d ≤ 31
            ∧ hh ≤ 23 ∧ mm ≤ 59 ∧ ss ≤ 59
            ∧ civilFromDays (daysFromCivil y m d) = ((y : Int), (m : Int), (d : Int)) then
          some (daysFromCivil y m d * 86400 + ((hh : Int) * 3600 + (mm : Int) * 60 + (ss : Int)))
        else none
      | _, _, _, _, _, _ => none) := rfl

theorem strptimeTF_parsed (y1 y2 y3 y4 m1 m2 d1 d2 h1 h2 n1 n2 s1 s2 : Char)
    (Y M D HH MM SS : Nat)
    (e1 : parse4 y1 y2 y3 y4 = some Y) (e2 : parse2 m1 m2 = some M)
    (e3 : parse2 d1 d2 = some D) (e4 : parse2 h1 h2 = some HH)
    (e5 : parse2 n1 n2 = some MM) (e6 : parse2 s1 s2 = some SS) :
    strptimeTF (String.mk
      [y1, y2, y3, y4, '-', m1, m2, '-', d1, d2, 'T', h1, h2, ':', n1, n2, ':', s1, s2])
    = if 1 ≤ Y ∧ Y ≤ 9999 ∧ 1 ≤ M ∧ M ≤ 12 ∧ 1 ≤ D ∧ D ≤ 31
          ∧ HH ≤ 23 ∧ MM ≤ 59 ∧ SS ≤ 59
          ∧ civilFromDays (daysFromCivil Y M D) = ((Y : Int), (M : Int), (D : Int)) then
        some (daysFromCivil Y M D * 86400 + ((HH : Int) * 3600 + (MM : Int) * 60 + (SS : Int)))
      else none := by
  rw [strptimeTF_explicit, e1, e2, e3, e4, e5, e6]

theorem strptimeTF_strftimeTF (t : Int) (ht0 : 0 ≤ t) (ht1 : t ≤ 253402300799) :
    strptimeTF (strftimeTF t) = some t := by
  have hz0 : 0 ≤ t / 86400 := by omega
  have hz1 : t / 86400 ≤ 2932896 := by omega
  obtain ⟨hy1, hy2, hm1, hm2, hd1, hd2, hrt⟩ := civilFromDays_spec (t / 86400) hz0 hz1
  have hsod : (t % 86400).toNat < 86400 := by omega
  have hs : strftimeTF t = String.mk
      [digitChar ((yearH (t / 86400)).toNat / 1000 % 10),
       digitChar ((yearH (t / 86400)).toNat / 100 % 10),
       digitChar ((yearH (t / 86400)).toNat / 10 % 10),
       digitChar ((yearH (t / 86400)).toNat % 10), '-',
       digitChar ((monthH (t / 86400)).toNat / 10 % 10),
       digitChar ((monthH (t / 86400)).toNat % 10), '-',
       digitChar ((dayH (t / 86400)).toNat / 10 % 10),
       digitChar ((dayH (t / 86400)).toNat % 10), 'T',
       digitChar ((t % 86400).toNat / 3600 / 10 % 10),
       digitChar ((t % 86400).toNat / 3600 % 10), ':',
       digitChar ((t % 86400).toNat % 3600 / 60 / 10 % 10),
       digitChar ((t % 86400).toNat % 3600 / 60 % 10), ':',
       digitChar ((t % 86400).toNat % 60 / 10 % 10),
       digitChar ((t % 86400).toNat % 60 % 10)] := rfl
  rw [hs, strptimeTF_parsed _ _ _ _ _ _ _ _ _ _ _ _ _ _
    ((yearH (t / 86400)).toNat) ((monthH (t / 86400)).toNat) ((dayH (t / 86400)).toNat)
    ((t % 86400).toNat / 3600) ((t % 86400).toNat % 3600 / 60) ((t % 86400).toNat % 60)
    (parse4_digits ((yearH (t / 86400)).toNat) (by omega))
    (parse2_digits ((monthH (t / 86400)).toNat) (by omega))
    (parse2_digits ((dayH (t / 86400)).toNat) (by omega))
    (parse2_digits ((t % 86400).toNat / 3600) (by omega))
    (parse2_digits ((t % 86400).toNat % 3600 / 60) (by omega))
    (parse2_digits ((t % 86400).toNat % 60) (by omega))]
  have hYc : (((yearH (t / 86400)).toNat : Int)) = yearH (t / 86400) := by omega
  have hMc : (((monthH (t / 86400)).toNat : Int)) = monthH (t / 86400) := by omega
  have hDc : (((dayH (t / 86400)).toNat : Int)) = dayH (t / 86400) := by omega
  have hvalid : civilFromDays (daysFromCivil ((yearH (t / 86400)).toNat : Int)
        ((monthH (t / 86400)).toNat : Int) ((dayH (t / 86400)).toNat : Int))
      = ((((yearH (t / 86400)).toNat : Int)), (((monthH (t / 86400)).toNat : Int)),
         (((dayH (t / 86400)).toNat : Int))) := by
    rw [hYc, hMc, hDc, hrt]
    rfl
  rw [if_pos ⟨by omega, by omega, by omega, by omega, by omega, by omega,
    by omega, by omega, by omega, hvalid⟩]
  rw [hYc, hMc, hDc, hrt]
  congr 1
  omega

theorem strptimeTF_ne_empty (s : String) (e : Int) (h : strptimeTF s = some e) :
    s ≠ "" := by
  intro he
  rw [he] at h
  exact Option.noConfusion h

theorem is_token_expired_parsed (ts : String) (e now : Int) (h : strptimeTF ts = some e) :
    is_token_expired (some ts) now = some (decide (e ≤ now)) := by
  show (if ts = "" then some true
    else match strptimeTF ts with
      | none => none
      | some expiry => some (decide (expiry ≤ now))) = some (decide (e ≤ now))
  rw [if_neg (strptimeTF_ne_empty ts e h), h]

theorem is_access_expired_of_parse (c : Credential) (now : Int) (ta : String) (ea : Int)
    (hain : c.access_token_expires_in ≠ 0) (haat : c.access_token_expires_at = some ta)
    (hpa : strptimeTF ta = some ea) (hae : ea ≤ now) :
    is_access_token_expired c now = some true := by
  unfold is_access_token_expired
  rw [if_neg hain, haat, is_token_expired_parsed ta ea now hpa]
  simp [hae]

theorem is_refresh_expired_of_parse (c : Credential) (now : Int) (tr : String) (er : Int)
    (hrin : c.refresh_token_expires_in ≠ 0) (hrat : c.refresh_token_expires_at = some tr)
    (hpr : strptimeTF tr = some er) (hre : er ≤ now) :
    is_refresh_token_expired c now = some true := by
  unfold is_refresh_token_expired
  rw [if_neg hrin, hrat, is_token_expired_parsed tr er now hpr]
  simp [hre]

theorem authenticate_valid (c : Credential) (lt rt : TokenDict) (now : Int)
    (hTok : pyTruthyStr c.access_token = true)
    (hfresh : is_access_token_expired c now = some false) :
    authenticate c lt rt now = (c, [], Except.ok ()) := by
  unfold authenticate
  rw [hTok, hfresh]
  simp

theorem authenticate_reauth (c : Credential) (lt rt : TokenDict) (now : Int)
    (hTok : pyTruthyStr c.access_token = true)
    (ha : is_access_token_expired c now = some true)
    (hr : is_refresh_token_expired c now = some true) :
    authenticate c lt rt now = (c, [], Except.error AuthError.reauthenticationRequired) := by
  unfold authenticate
  rw [hTok, ha, hr]
  simp

theorem authenticate_refresh (c : Credential) (lt rt : TokenDict) (now : Int)
    (hTok : pyTruthyStr c.access_token = true)
    (ha : is_access_token_expired c now = some true)
    (hr : is_refresh_token_expired c now = some false) :
    authenticate c lt rt now = refresh_access_token rt now := by
  unfold authenticate
  rw [hTok, ha, hr]
  simp

/-- Claim C1: for every client whose access_token is present (truthy), whose
access token is expiring (access_token_expires_in not 0) and expired at now,
and whose refresh token is expiring and expired at now, _authenticate fails
with ReauthenticationRequired ("Please refresh your login."), makes zero
network calls, and leaves the stored credential unchanged. -/
theorem c1_fully_expired_reauth (c : Credential) (lt rt : TokenDict) (now : Int)
    (ta tr : String) (ea er : Int)
    (hTok : pyTruthyStr c.access_token = true)
    (hain : c.access_token_expires_in ≠ 0)
    (haat : c.access_token_expires_at = some ta)
    (hpa : strptimeTF ta = some ea)
    (hae : ea ≤ now)
    (hrin : c.refresh_token_expires_in ≠ 0)
    (hrat : c.refresh_token_expires_at = some tr)
    (hpr : strptimeTF tr = some er)
    (hre : er ≤ now) :
    authenticate c lt rt now = (c, [], Except.error AuthError.reauthenticationRequired) :=
  authenticate_reauth c lt rt now hTok
    (is_access_expired_of_parse c now ta ea hain haat hpa hae)
    (is_refresh_expired_of_parse c now tr er hrin hrat hpr hre)

/-- Witness for C1, at the frozen clock of the repository tests: both expiries lie
before now = 2012-01-14T03:00:00Z. -/
theorem c1_witness :
    authenticate
      ⟨some "access-token-123", 300, some "2012-01-14T01:00:00",
       some "refresh-token-123", 1200, some "2012-01-14T02:00:00"⟩
      ⟨none, none, none, none⟩ ⟨none, none, none, none⟩ 1326510000
    = (⟨some "access-token-123", 300, some "2012-01-14T01:00:00",
        some "refresh-token-123", 1200, some "2012-01-14T02:00:00"⟩,
       [], Except.error AuthError.reauthenticationRequired) :=
  c1_fully_expired_reauth _ _ _ 1326510000
    "2012-01-14T01:00:00" "2012-01-14T02:00:00" 1326502800 1326506400
    (by decide) (by decide) rfl (by decide) (by decide)
    (by decide) rfl (by decide) (by decide)

/-- Claim C4: a token whose expires_in equals 0 is classified non-expiring:
with a truthy access_token and access_token_expires_in = 0, _authenticate
returns immediately with no network calls (regardless of the stored
timestamp, even one in the past); and refresh_token_expires_in = 0 makes the
refresh-expiry check return false regardless of its stored timestamp. -/
theorem c4_nonexpiring_short_circuit :
    (∀ (c : Credential) (lt rt : TokenDict) (now : Int),
      pyTruthyStr c.access_token = true → c.access_token_expires_in = 0 →
      authenticate c lt rt now = (c, [], Except.ok ())) ∧
    (∀ (c : Credential) (now : Int), c.refresh_token_expires_in = 0 →
      is_refresh_token_expired c now = some false) := by
  constructor
  · intro c lt rt now hTok h0
    apply authenticate_valid c lt rt now hTok
    unfold is_access_token_expired
    rw [if_pos h0]
  · intro c now h0
    unfold is_refresh_token_expired
    rw [if_pos h0]

/-- Witness for C4: both stored timestamps are in the past of
now = 2012-01-14T10:00:00Z, yet nothing is refreshed. -/
theorem c4_witness :
    authenticate
      ⟨some "access-token-123", 0, some "2012-01-14T09:00:00",
       some "refresh-token-123", 0, some "2012-01-14T09:30:00"⟩
      ⟨none, none, none, none⟩ ⟨none, none, none, none⟩ 1326535200
    = (⟨some "access-token-123", 0, some "2012-01-14T09:00:00",
        some "refresh-token-123", 0, some "2012-01-14T09:30:00"⟩, [], Except.ok ()) ∧
    is_refresh_token_expired
      ⟨some "access-token-123", 0, some "2012-01-14T09:00:00",
       some "refresh-token-123", 0, some "2012-01-14T09:30:00"⟩ 1326535200 = some false :=
  ⟨c4_nonexpiring_short_circuit.1 _ _ _ _ (by decide) rfl,
   c4_nonexpiring_short_circuit.2 _ _ rfl⟩

/-- Claim C5: for every client whose access_token is present (truthy) and not
expired (access_token_expires_in = 0, or now is strictly before the parsed
access_token_expires_at), _authenticate returns immediately with no network
calls and performs neither login nor refresh. -/
theorem c5_valid_no_network (c : Credential) (lt rt : TokenDict) (now : Int)
    (hTok : pyTruthyStr c.access_token = true)
    (hfresh : c.access_token_expires_in = 0 ∨
      ∃ ta ea, c.access_token_expires_at = some ta ∧ strptimeTF ta = some ea ∧ now < ea) :
    authenticate c lt rt now = (c, [], Except.ok ()) := by
  apply authenticate_valid c lt rt now hTok
  rcases hfresh with h0 | ⟨ta, ea, haat, hpa, hlt⟩
  · unfold is_access_token_expired
    rw [if_pos h0]
  · by_cases h0 : c.access_token_expires_in = 0
    · unfold is_access_token_expired
      rw [if_pos h0]
    · unfold is_access_token_expired
      rw [if_neg h0, haat, is_token_expired_parsed ta ea now hpa]
      simp only [Option.some.injEq, decide_eq_false_iff_not]
      omega

/-- Witness for C5: access token valid for five more minutes at
now = 2012-01-14T01:00:00Z. -/
theorem c5_witness :
    authenticate
      ⟨some "access-token-123", 300, some "2012-01-14T01:05:00",
       some "refresh-token-123", 1200, some "2012-01-14T01:20:00"⟩
      ⟨none, none, none, none⟩ ⟨none, none, none, none⟩ 1326502800
    = (⟨some "access-token-123", 300, some "2012-01-14T01:05:00",
        some "refresh-token-123", 1200, some "2012-01-14T01:20:00"⟩, [], Except.ok ()) :=
  c5_valid_no_network _ _ _ 1326502800 (by decide)
    (Or.inr ⟨"2012-01-14T01:05:00", 1326503100, rfl, by decide, by decide⟩)

/-- Claim C6: with an expiring access token (access_token_expires_in not 0),
a stored expiry timestamp exactly equal to the current instant is classified
as expired, not valid: the comparison in _is_token_expired is expiry <= now,
with no grace window. -/
theorem c6_boundary_expired (c : Credential) (now : Int) (ts : String)
    (hain : c.access_token_expires_in ≠ 0)
    (haat : c.access_token_expires_at = some ts)
    (hpa : strptimeTF ts = some now) :
    is_token_expired (some ts) now = some true ∧
    is_access_token_expired c now = some true := by
  have h1 : is_token_expired (some ts) now = some true := by
    rw [is_token_expired_parsed ts now now hpa]
    simp
  refine ⟨h1, ?_⟩
  unfold is_access_token_expired
  rw [if_neg hain, haat]
  exact h1

/-- Witness for C6: the stored expiry equals now = 2012-01-14T01:10:00Z. -/
theorem c6_witness :
    is_token_expired (some "2012-01-14T01:10:00") 1326503400 = some true ∧
    is_access_token_expired
      ⟨some "access-token-123", 300, some "2012-01-14T01:10:00", none, 0, none⟩
      1326503400 = some true :=
  c6_boundary_expired
    ⟨some "access-token-123", 300, some "2012-01-14T01:10:00", none, 0, none⟩
    1326503400 "2012-01-14T01:10:00" (by decide) rfl (by decide)

/-- Claim C9: with a truthy access_token, a nonzero access_token_expires_in
and an unset (None) access_token_expires_at, the access token is classified
as expired, so _authenticate never takes the valid-return-immediately path;
likewise the refresh half: nonzero refresh_token_expires_in with an unset
refresh_token_expires_at classifies the refresh token as expired. -/
theorem c9_unset_expiry_is_expired :
    (∀ (c : Credential) (lt rt : TokenDict) (now : Int),
      pyTruthyStr c.access_token = true → c.access_token_expires_in ≠ 0 →
      c.access_token_expires_at = none →
      is_access_token_expired c now = some true ∧
      authenticate c lt rt now ≠ (c, [], Except.ok ())) ∧
    (∀ (c : Credential) (now : Int), c.refresh_token_expires_in ≠ 0 →
      c.refresh_token_expires_at = none →
      is_refresh_token_expired c now = some true) := by
  constructor
  · intro c lt rt now hTok hin hat
    have ha : is_access_token_expired c now = some true := by
      unfold is_access_token_expired
      rw [if_neg hin, hat]
      rfl
    refine ⟨ha, ?_⟩
    intro heq
    unfold authenticate at heq
    rw [hTok, ha] at heq
    simp only [Bool.true_eq_false, if_false] at heq
    rcases hrx : is_refresh_token_expired c now with _ | b
    · rw [hrx] at heq
      simp at heq
    · rw [hrx] at heq
      rcases b
      · simp only [if_pos rfl] at heq
        unfold refresh_access_token at heq
        simp at heq
      · simp at heq
  · intro c now hin hat
    unfold is_refresh_token_expired
    rw [if_neg hin, hat]
    rfl

/-- Witness for C9: both expiry timestamps unset while both expires_in values
are nonzero. -/
theorem c9_witness :
    is_access_token_expired
      ⟨some "access-token-123", 300, none, some "refresh-token-123", 1200, none⟩ 0
      = some true ∧
    authenticate
      ⟨some "access-token-123", 300, none, some "refresh-token-123", 1200, none⟩
      ⟨none, none, none, none⟩ ⟨none, none, none, none⟩ 0
      ≠ (⟨some "access-token-123", 300, none, some "refresh-token-123", 1200, none⟩,
         [], Except.ok ()) ∧
    is_refresh_token_expired
      ⟨some "access-token-123", 300, none, some "refresh-token-123", 1200, none⟩ 0
      = some true :=
  ⟨(c9_unset_expiry_is_expired.1 _ ⟨none, none, none, none⟩ ⟨none, none, none, none⟩ 0
      (by decide) (by decide) rfl).1,
   (c9_unset_expiry_is_expired.1 _ ⟨none, none, none, none⟩ ⟨none, none, none, none⟩ 0
      (by decide) (by decide) rfl).2,
   c9_unset_expiry_is_expired.2 _ 0 (by decide) rfl⟩

theorem is_refresh_unset_expiry_expired (c : Credential) (now : Int)
    (hrin : c.refresh_token_expires_in ≠ 0)
    (hrat : c.refresh_token_expires_at = none) :
    is_refresh_token_expired c now = some true := by
  unfold is_refresh_token_expired
  rw [if_neg hrin, hrat]
  rfl

/-- Counterexample for C2: a client with an expired expiring access token, an
ABSENT refresh_token (None), but a nonzero refresh_token_expires_in and an
unexpired refresh_token_expires_at. Contrary to the claim, _authenticate does
not fail with ReauthenticationRequired: it runs the refresh path (one
token-endpoint network call), because _is_refresh_token_expired never
consults refresh_token itself. -/
theorem c2_counterexample :
    authenticate
      ⟨some "access-token-123", 300, some "2012-01-14T01:05:00",
       none, 1200, some "2012-01-14T01:15:00"⟩
      ⟨none, none, none, none⟩
      ⟨some "access-token-456", some 300, some "refresh-token-456", some 1200⟩
      1326503400
    = (set_variables_from_token
        ⟨some "access-token-456", some 300, some "refresh-token-456", some 1200⟩
        1326503400,
       [NetCall.tokenRefresh], Except.ok ()) ∧
    (authenticate
      ⟨some "access-token-123", 300, some "2012-01-14T01:05:00",
       none, 1200, some "2012-01-14T01:15:00"⟩
      ⟨none, none, none, none⟩
      ⟨some "access-token-456", some 300, some "refresh-token-456", some 1200⟩
      1326503400).2.2 ≠ Except.error AuthError.reauthenticationRequired :=
  ⟨rfl, fun h => Except.noConfusion h⟩

/-- Claim C2 (amended): the absence the code actually consults is that of the
refresh-expiry TIMESTAMP, not of the refresh token: with a truthy, expiring
and expired access token, a nonzero refresh_token_expires_in and an unset
(None) refresh_token_expires_at, _authenticate treats the refresh token as
expired and fails with ReauthenticationRequired instead of refreshing,
regardless of whether refresh_token itself is present. -/
theorem c2_amended_unset_refresh_expiry_reauth (c : Credential) (lt rt : TokenDict)
    (now : Int) (ta : String) (ea : Int)
    (hTok : pyTruthyStr c.access_token = true)
    (hain : c.access_token_expires_in ≠ 0)
    (haat : c.access_token_expires_at = some ta)
    (hpa : strptimeTF ta = some ea)
    (hae : ea ≤ now)
    (hrin : c.refresh_token_expires_in ≠ 0)
    (hrat : c.refresh_token_expires_at = none) :
    authenticate c lt rt now = (c, [], Except.error AuthError.reauthenticationRequired) :=
  authenticate_reauth c lt rt now hTok
    (is_access_expired_of_parse c now ta ea hain haat hpa hae)
    (is_refresh_unset_expiry_expired c now hrin hrat)

/-- Witness for the amended C2: the refresh token is absent AND its expiry
timestamp is unset, so the reauthentication failure is reached. -/
theorem c2_amended_witness :
    authenticate
      ⟨some "access-token-123", 300, some "2012-01-14T01:05:00", none, 1200, none⟩
      ⟨none, none, none, none⟩ ⟨none, none, none, none⟩ 1326503400
    = (⟨some "access-token-123", 300, some "2012-01-14T01:05:00", none, 1200, none⟩,
       [], Except.error AuthError.reauthenticationRequired) :=
  c2_amended_unset_refresh_expiry_reauth _ _ _ 1326503400
    "2012-01-14T01:05:00" 1326503100
    (by decide) (by decide) rfl (by decide) (by decide) (by decide) rfl

theorem set_variables_access_none (tok : TokenDict) (now : Int)
    (h : tok.access_token = none) :
    (set_variables_from_token tok now).access_token = none := by
  simp [set_variables_from_token, h]

theorem login_token_missing (tok : TokenDict) (now : Int) (h : tok.access_token = none) :
    login tok now = (set_variables_from_token tok now,
      [NetCall.listenCallback, NetCall.tokenExchange],
      Except.error AuthError.invalidTokenResponse) := by
  simp [login, set_variables_access_none tok now h, pyTruthyStr]

/-- Counterexample for C3: a 2xx refresh response lacking access_token is
NOT rejected by the refresh path: _refresh_access_token silently applies it
(outcome ok, no exception), leaving access_token unset, contrary to the
claim that the refresh path also raises InvalidTokenResponse. -/
theorem c3_counterexample :
    authenticate
      ⟨some "access-token-123", 300, some "2012-01-14T01:05:00",
       some "refresh-token-123", 1200, some "2012-01-14T01:15:00"⟩
      ⟨none, none, none, none⟩
      ⟨none, some 300, some "refresh-token-456", some 1200⟩
      1326503400
    = (set_variables_from_token
        ⟨none, some 300, some "refresh-token-456", some 1200⟩ 1326503400,
       [NetCall.tokenRefresh], Except.ok ()) ∧
    (set_variables_from_token
      ⟨none, some 300, some "refresh-token-456", some 1200⟩ 1326503400).access_token
      = none :=
  ⟨rfl, rfl⟩

/-- Claim C3 (amended): on a 2xx token response lacking access_token, the
code-exchange path (login) raises InvalidTokenResponse after applying the
response, but the refresh path (_refresh_access_token) does NOT raise: it
silently applies the response, leaving access_token unset. -/
theorem c3_amended_login_raises_refresh_applies :
    (∀ (tok : TokenDict) (now : Int), tok.access_token = none →
      login tok now = (set_variables_from_token tok now,
        [NetCall.listenCallback, NetCall.tokenExchange],
        Except.error AuthError.invalidTokenResponse)) ∧
    (∀ (tok : TokenDict) (now : Int), tok.access_token = none →
      refresh_access_token tok now
        = (set_variables_from_token tok now, [NetCall.tokenRefresh], Except.ok ()) ∧
      (set_variables_from_token tok now).access_token = none) :=
  ⟨login_token_missing,
   fun tok now h => ⟨rfl, set_variables_access_none tok now h⟩⟩

/-- Witness for the amended C3, on a concrete tokenless 2xx response. -/
theorem c3_amended_witness :
    login ⟨none, some 300, some "refresh-token-456", some 1200⟩ 1326503400
      = (set_variables_from_token
          ⟨none, some 300, some "refresh-token-456", some 1200⟩ 1326503400,
         [NetCall.listenCallback, NetCall.tokenExchange],
         Except.error AuthError.invalidTokenResponse) ∧
    refresh_access_token ⟨none, some 300, some "refresh-token-456", some 1200⟩ 1326503400
      = (set_variables_from_token
          ⟨none, some 300, some "refresh-token-456", some 1200⟩ 1326503400,
         [NetCall.tokenRefresh], Except.ok ()) :=
  ⟨c3_amended_login_raises_refresh_applies.1 _ 1326503400 rfl,
   (c3_amended_login_raises_refresh_applies.2 _ 1326503400 rfl).1⟩

/-- Claim C10: when the login flow receives a token response lacking
access_token, it overwrites all six credential fields from that response
before raising: afterwards access_token is None, refresh_token is whatever
the response carried, and both expiry timestamps are recomputed from the
response; the pre-login credential does not survive (the right-hand side
below does not mention the incoming credential at all). -/
theorem c10_login_overwrites_before_raising (c : Credential) (lt rt : TokenDict)
    (now : Int)
    (hstart : pyTruthyStr c.access_token = false)
    (hmiss : lt.access_token = none) :
    authenticate c lt rt now =
      ({ access_token := none,
         access_token_expires_in := lt.expires_in.getD 0,
         access_token_expires_at :=
           some (calculate_token_expiry now (lt.expires_in.getD 0)),
         refresh_token := lt.refresh_token,
         refresh_token_expires_in := lt.refresh_expires_in.getD 0,
         refresh_token_expires_at :=
           some (calculate_token_expiry now (lt.refresh_expires_in.getD 0)) },
       [NetCall.listenCallback, NetCall.tokenExchange],
       Except.error AuthError.invalidTokenResponse) := by
  unfold authenticate
  rw [hstart]
  simp only [if_pos rfl, if_true]
  rw [login_token_missing lt now hmiss]
  unfold set_variables_from_token
  rw [hmiss]

/-- Witness for C10: a fresh client, a tokenless login response. -/
theorem c10_witness :
    authenticate ⟨none, 0, none, none, 0, none⟩
      ⟨none, some 300, some "refresh-token-123", some 1200⟩
      ⟨none, none, none, none⟩ 1326511294
    = ({ access_token := none,
         access_token_expires_in := 300,
         access_token_expires_at := some (calculate_token_expiry 1326511294 300),
         refresh_token := some "refresh-token-123",
         refresh_token_expires_in := 1200,
         refresh_token_expires_at := some (calculate_token_expiry 1326511294 1200) },
       [NetCall.listenCallback, NetCall.tokenExchange],
       Except.error AuthError.invalidTokenResponse) :=
  c10_login_overwrites_before_raising ⟨none, 0, none, none, 0, none⟩
    ⟨none, some 300, some "refresh-token-123", some 1200⟩
    ⟨none, none, none, none⟩ 1326511294 (by decide) rfl

theorem digitChar_not_offset (n : Nat) : digitChar n ≠ '+' ∧ digitChar n ≠ 'Z' := by
  unfold digitChar
  split <;> exact ⟨by decide, by decide⟩

theorem strftimeTF_chars (t : Int) :
    ∀ ch ∈ (strftimeTF t).data,
      ch = '-' ∨ ch = ':' ∨ ch = 'T' ∨ ∃ k, ch = digitChar k := by
  intro ch h
  have h' : ch ∈ pad4 (yearH (t / 86400)).toNat
      ++ '-' :: pad2 (monthH (t / 86400)).toNat
      ++ '-' :: pad2 (dayH (t / 86400)).toNat
      ++ 'T' :: pad2 ((t % 86400).toNat / 3600)
      ++ ':' :: pad2 ((t % 86400).toNat % 3600 / 60)
      ++ ':' :: pad2 ((t % 86400).toNat % 60) := h
  simp only [pad4, pad2, List.cons_append, List.nil_append, List.mem_cons,
    List.not_mem_nil, or_false] at h'
  rcases h' with h|h|h|h|h|h|h|h|h|h|h|h|h|h|h|h|h|h|h <;>
    first
      | exact Or.inl h
      | exact Or.inr (Or.inl h)
      | exact Or.inr (Or.inr (Or.inl h))
      | exact Or.inr (Or.inr (Or.inr ⟨_, h⟩))

theorem strftimeTF_no_offset (t : Int) :
    ∀ ch ∈ (strftimeTF t).data, ch ≠ '+' ∧ ch ≠ 'Z' := by
  intro ch h
  rcases strftimeTF_chars t ch h with rfl | rfl | rfl | ⟨k, rfl⟩
  · exact ⟨by decide, by decide⟩
  · exact ⟨by decide, by decide⟩
  · exact ⟨by decide, by decide⟩
  · exact digitChar_not_offset k

/-- Counterexample for C7: the serialized timestamp carries NO explicit UTC
offset. At the frozen clock of the repository tests, applying expires_in = 300
stores exactly "2012-01-14T03:26:34": no '+' offset and no 'Z' designator
appears in it, and TIME_FORMAT itself has no offset directive (no z). -/
theorem c7_counterexample :
    calculate_token_expiry 1326511294 300 = "2012-01-14T03:26:34" ∧
    (∀ ch ∈ ("2012-01-14T03:26:34" : String).data, ch ≠ '+' ∧ ch ≠ 'Z') ∧
    (∀ ch ∈ TIME_FORMAT.data, ch ≠ 'z' ∧ ch ≠ 'Z') :=
  ⟨by decide, by decide, by decide⟩

/-- Claim C7 (amended): whenever a TokenSet is applied at time t0, the stored
access_token_expires_at equals t0 + expires_in seconds and
refresh_token_expires_at equals t0 + refresh_expires_in seconds, rendered at
second-level precision in the fixed format "%Y-%m-%dT%H:%M:%S" and parsed
back (with tzinfo=utc reattached) to exactly that instant — but the
serialized form carries NO explicit UTC offset; UTC is only implicit. -/
theorem c7_amended_expiry_computation (tok : TokenDict) (now : Int)
    (h1 : 0 ≤ now + tok.expires_in.getD 0)
    (h2 : now + tok.expires_in.getD 0 ≤ 253402300799)
    (h3 : 0 ≤ now + tok.refresh_expires_in.getD 0)
    (h4 : now + tok.refresh_expires_in.getD 0 ≤ 253402300799) :
    (set_variables_from_token tok now).access_token_expires_at
      = some (strftimeTF (now + tok.expires_in.getD 0)) ∧
    strptimeTF (strftimeTF (now + tok.expires_in.getD 0))
      = some (now + tok.expires_in.getD 0) ∧
    (set_variables_from_token tok now).refresh_token_expires_at
      = some (strftimeTF (now + tok.refresh_expires_in.getD 0)) ∧
    strptimeTF (strftimeTF (now + tok.refresh_expires_in.getD 0))
      = some (now + tok.refresh_expires_in.getD 0) ∧
    (∀ ch ∈ (strftimeTF (now + tok.expires_in.getD 0)).data, ch ≠ '+' ∧ ch ≠ 'Z') ∧
    (∀ ch ∈ (strftimeTF (now + tok.refresh_expires_in.getD 0)).data,
      ch ≠ '+' ∧ ch ≠ 'Z') :=
  ⟨rfl, strptimeTF_strftimeTF _ h1 h2, rfl, strptimeTF_strftimeTF _ h3 h4,
   strftimeTF_no_offset _, strftimeTF_no_offset _⟩

/-- Witness for the amended C7, at the frozen clock of the repository tests
2012-01-14T03:21:34Z with expires_in 300 and refresh_expires_in 1200. -/
theorem c7_amended_witness :
    (set_variables_from_token
      ⟨some "access-token-123", some 300, some "refresh-token-123", some 1200⟩
      1326511294).access_token_expires_at = some (strftimeTF 1326511594) ∧
    strptimeTF (strftimeTF 1326511594) = some 1326511594 :=
  ⟨(c7_amended_expiry_computation
      ⟨some "access-token-123", some 300, some "refresh-token-123", some 1200⟩
      1326511294 (by decide) (by decide) (by decide) (by decide)).1,
   (c7_amended_expiry_computation
      ⟨some "access-token-123", some 300, some "refresh-token-123", some 1200⟩
      1326511294 (by decide) (by decide) (by decide) (by decide)).2.1⟩

set_option maxRecDepth 10000 in
theorem sha256_empty_vector :
    sha256 [] = [227, 176, 196, 66, 152, 252, 28, 20, 154, 251, 244, 200, 153, 111,
      185, 36, 39, 174, 65, 228, 100, 155, 147, 76, 164, 149, 153, 27, 120, 82,
      184, 85] := by
  decide

set_option maxRecDepth 10000 in
theorem sha256_nist_two_block_vector :
    sha256 (utf8Encode "abcdbcdecdefdefgefghfghighijhijkijkljklmklmnlmnomnopnopq")
    = [36, 141, 106, 97, 210, 6, 56, 184, 229, 192, 38, 147, 12, 62, 96, 57, 163, 60,
       228, 89, 100, 255, 33, 103, 246, 236, 237, 212, 25, 219, 6, 193] := by
  decide

set_option maxRecDepth 10000 in
theorem generate_pkce_python_anchor :
    (generate_pkce (List.replicate 40 7)).1
      = "BwcHBwcHBwcHBwcHBwcHBwcHBwcHBwcHBwcHBwcHBwcHBwcHBwcHBw" ∧
    (generate_pkce (List.replicate 40 7)).2
      = "xSfwX7rjZLJMrdh-iD0GZBd1V1Yh0Fzkm8zE00WbFAg" := by
  constructor
  · decide
  · decide

/-- Claim C8: for every pair returned by _generate_pkce (as a function of the
40 bytes drawn from os.urandom(40)), the challenge equals the URL-safe
unpadded base64 encoding of the SHA-256 digest of the UTF-8 bytes of the
verifier string, and the verifier is the URL-safe unpadded base64 encoding of
at least 40 cryptographically random raw bytes. -/
theorem c8_pkce_round_trip (urandomBytes : List Nat) (h : urandomBytes.length = 40) :
    (generate_pkce urandomBytes).2
      = b64urlNoPad (sha256 (utf8Encode (generate_pkce urandomBytes).1)) ∧
    (generate_pkce urandomBytes).1 = b64urlNoPad urandomBytes ∧
    40 ≤ urandomBytes.length :=
  ⟨rfl, rfl, by omega⟩

/-- Witness for C8 at a concrete 40-byte random draw. -/
theorem c8_witness :
    (generate_pkce (List.replicate 40 7)).2
      = b64urlNoPad (sha256 (utf8Encode (generate_pkce (List.replicate 40 7)).1)) ∧
    (generate_pkce (List.replicate 40 7)).1 = b64urlNoPad (List.replicate 40 7) ∧
    40 ≤ (List.replicate 40 7).length :=
  c8_pkce_round_trip (List.replicate 40 7) (by simp)

/-- Anchor to the repository test test_login_sets_the_clients_authentication_details:
applying the mocked token response at the frozen clock 2012-01-14T03:21:34Z
yields exactly the six credential fields the test asserts. -/
theorem set_variables_matches_repo_login_test :
    set_variables_from_token
      ⟨some "access-token-123", some 300, some "refresh-token-123", some 1200⟩
      1326511294
    = ⟨some "access-token-123", 300, some "2012-01-14T03:26:34",
       some "refresh-token-123", 1200, some "2012-01-14T03:41:34"⟩ := by
  decide

/-- Anchor to the repository test
test_get_will_attempt_to_refresh_the_access_token_if_the_access_token_is_expired:
at 2012-01-14T01:10:00Z with access expired five minutes ago and refresh valid
for five more, exactly one refresh call and no login happens. -/
theorem authenticate_matches_repo_refresh_test :
    (authenticate
      ⟨some "access-token-123", 300, some "2012-01-14T01:05:00",
       some "refresh-token-123", 1200, some "2012-01-14T01:15:00"⟩
      ⟨none, none, none, none⟩
      ⟨some "access-token-456", some 300, some "refresh-token-456", some 1200⟩
      1326503400).2.1 = [NetCall.tokenRefresh] := by
  decide
